import Mathlib

/-!
Verification model of the terraform-flow demo repository.

The only executable code of the repository is src/src/index.js, an Express
application with two routes:

  app.get("/", (req, res) =>
      res.send("CI/CD + Terraform demo working 🚀"))
  app.get("/deploy", (req, res) =>
      res.send("deployed by CI/CD + Terraform demo working 🚀"))
  app.listen(3000, () => console.log("App running"))

The application itself registers routes and delegates request dispatch to the
Express framework, an external dependency.  The dispatch semantics embedded
below are the documented defaults of the Express 4 router, which the
application does not change:

  * route path matching is case-insensitive (option caseSensitive is false by
    default) and tolerates one trailing slash (option strict is false by
    default);
  * a route registered with app.get also answers HEAD requests, with the body
    suppressed;
  * a request matched by no route falls through to the final handler, which
    answers 404 with the text body "Cannot METHOD path".

Strings are modelled with the Lean String type; handlers are functions from
the full request to the response body, exactly as the source lambdas take the
req object (and ignore it).
-/

/-- HTTP request methods that can reach the router. -/
inductive Method where
  | GET
  | HEAD
  | POST
  | PUT
  | DELETE
  | PATCH
deriving DecidableEq

/-- The standard spelling of each method, used in the default 404 body. -/
def methodName : Method → String
  | Method.GET => "GET"
  | Method.HEAD => "HEAD"
  | Method.POST => "POST"
  | Method.PUT => "PUT"
  | Method.DELETE => "DELETE"
  | Method.PATCH => "PATCH"

/-- An incoming HTTP request: method, pathname, query string, headers, body.
Express hands the whole object to each handler. -/
structure Request where
  method : Method
  path : String
  query : String
  headers : List (String × String)
  body : String

/-- An HTTP response: status code and body text. -/
structure Response where
  status : Nat
  body : String
deriving DecidableEq

/-- A registered route: the path pattern given to app.get and the handler
function, which receives the request object. -/
structure Route where
  path : String
  handler : Request → String

/-- Body sent by the route for GET / in index.js. -/
def homeBody : String := "CI/CD + Terraform demo working 🚀"

/-- Body sent by the route for GET /deploy in index.js. -/
def deployBody : String := "deployed by CI/CD + Terraform demo working 🚀"

/-- Handler of app.get("/", ...): ignores the request, sends homeBody. -/
def homeHandler : Request → String := fun _ => homeBody

/-- Handler of app.get("/deploy", ...): ignores the request, sends
deployBody. -/
def deployHandler : Request → String := fun _ => deployBody

/-- The route table built by the two app.get calls, in registration order. -/
def routes : List Route := [⟨"/", homeHandler⟩, ⟨"/deploy", deployHandler⟩]

/-- The single app.listen call of index.js, by its port argument. -/
def listenCalls : List Nat := [3000]

/-- The port passed to app.listen. -/
def listenPort : Nat := 3000

/-- Drop one trailing slash from a pathname of length above one.  This is the
effect of the Express default strict:false, under which a route pattern also
matches the same path with a single trailing slash. -/
def stripSlash (cs : List Char) : List Char :=
  if 1 < cs.length ∧ cs.getLast? = some '/' then cs.dropLast else cs

/-- Normal form of a pathname under the Express default matching options:
one trailing slash removed, ASCII letters lowered (caseSensitive:false). -/
def normalizePath (p : String) : String :=
  String.mk ((stripSlash p.data).map Char.toLower)

/-- Whether a registered route pattern matches a request pathname, under the
Express default matching options. -/
def routeMatches (r : Route) (path : String) : Bool :=
  normalizePath path == normalizePath r.path

/-- First registered route matching the pathname, as the Express router
scans its layers in registration order. -/
def findRoute (rs : List Route) (path : String) : Option Route :=
  rs.find? (fun r => routeMatches r path)

/-- Default final-handler body for an unmatched request. -/
def notFoundBody (m : Method) (p : String) : String :=
  "Cannot " ++ methodName m ++ " " ++ p

/-- Dispatch of one request against a route table, following the Express 4
router defaults: GET runs the matching handler, HEAD matches GET routes with
the body suppressed, everything unmatched gets the 404 final handler. -/
def handleWith (rs : List Route) (req : Request) : Response :=
  match req.method with
  | Method.GET =>
    match findRoute rs req.path with
    | some r => ⟨200, r.handler req⟩
    | none => ⟨404, notFoundBody Method.GET req.path⟩
  | Method.HEAD =>
    match findRoute rs req.path with
    | some _ => ⟨200, ""⟩
    | none => ⟨404, ""⟩
  | m => ⟨404, notFoundBody m req.path⟩

/-- Dispatch of one request against the route table of index.js. -/
def handle (req : Request) : Response :=
  handleWith routes req

/-- The state the running server holds: its route table and bound port.
Handlers never write to it. -/
structure ServerState where
  routes : List Route
  port : Nat

/-- State of the server right after app.listen. -/
def initialState : ServerState := ⟨routes, listenPort⟩

/-- Processing one request: the response is computed from the route table in
the state, and the state is returned unchanged, as the handlers of index.js
touch no state. -/
def serverStep (s : ServerState) (req : Request) : ServerState × Response :=
  (s, handleWith s.routes req)

/-- Processing a sequence of requests in order, threading the state. -/
def runServer : ServerState → List Request → ServerState × List Response
  | s, [] => (s, [])
  | s, r :: rest =>
    ((runServer (serverStep s r).1 rest).1,
      (serverStep s r).2 :: (runServer (serverStep s r).1 rest).2)

/-- Response the server gives to req after already serving history. -/
def responseAfter (history : List Request) (req : Request) : Response :=
  (serverStep (runServer initialState history).1 req).2

/-- Whether the Express router accepts the request at all: the method is GET
or HEAD and some registered route matches the pathname. -/
def expressAccepts (req : Request) : Bool :=
  (req.method == Method.GET || req.method == Method.HEAD)
    && (findRoute routes req.path).isSome

/- Helper lemmas. -/

theorem runServer_state (s : ServerState) (reqs : List Request) :
    (runServer s reqs).1 = s := by
  induction reqs generalizing s with
  | nil => rfl
  | cons r rest ih => exact ih s

theorem routes_handler_const (r : Route) (hr : r ∈ routes) (a b : Request) :
    r.handler a = r.handler b := by
  simp only [routes, List.mem_cons, List.not_mem_nil, or_false] at hr
  rcases hr with rfl | rfl <;> rfl

theorem handle_ext (r1 r2 : Request) (hm : r1.method = r2.method)
    (hp : r1.path = r2.path) : handle r1 = handle r2 := by
  obtain ⟨m1, p1, q1, hd1, b1⟩ := r1
  obtain ⟨m2, p2, q2, hd2, b2⟩ := r2
  obtain rfl : m1 = m2 := hm
  obtain rfl : p1 = p2 := hp
  unfold handle handleWith
  cases m1 <;> try rfl
  cases hf : findRoute routes p1 with
  | none => rfl
  | some r =>
    exact congrArg (Response.mk 200)
      (routes_handler_const r (List.mem_of_find?_eq_some hf) _ _)

/- Claim theorems. -/

/-- C1: every request with method GET and path "/" is answered with status
200 and the exact body "CI/CD + Terraform demo working 🚀". -/
theorem get_home_ok (req : Request) (hm : req.method = Method.GET)
    (hp : req.path = "/") :
    handle req = ⟨200, "CI/CD + Terraform demo working 🚀"⟩ := by
  obtain ⟨m, p, q, hd, b⟩ := req
  obtain rfl : m = Method.GET := hm
  obtain rfl : p = "/" := hp
  rfl

theorem get_home_ok_witness :
    handle ⟨Method.GET, "/", "x=1", [("Accept", "text/html")], "ignored"⟩ =
      ⟨200, "CI/CD + Terraform demo working 🚀"⟩ :=
  get_home_ok ⟨Method.GET, "/", "x=1", [("Accept", "text/html")], "ignored"⟩
    rfl rfl

/-- C2: every request with method GET and path "/deploy" is answered with
status 200 and the exact body "deployed by CI/CD + Terraform demo working
🚀". -/
theorem get_deploy_ok (req : Request) (hm : req.method = Method.GET)
    (hp : req.path = "/deploy") :
    handle req = ⟨200, "deployed by CI/CD + Terraform demo working 🚀"⟩ := by
  obtain ⟨m, p, q, hd, b⟩ := req
  obtain rfl : m = Method.GET := hm
  obtain rfl : p = "/deploy" := hp
  rfl

theorem get_deploy_ok_witness :
    handle ⟨Method.GET, "/deploy", "", [], ""⟩ =
      ⟨200, "deployed by CI/CD + Terraform demo working 🚀"⟩ :=
  get_deploy_ok ⟨Method.GET, "/deploy", "", [], ""⟩ rfl rfl

/-- C8: the deploy body is exactly "deployed by " followed by the home body:
the two fixed response strings stand in an exact prefix relation. -/
theorem deploy_body_extends_home_body :
    deployBody = "deployed by " ++ homeBody := rfl

/-- C3, counterexample: the request HEAD "/" has a method/path pair that is
not one of the two registered routes (GET "/" and GET "/deploy"), yet the
server answers it with status 200, not 404 or 405. -/
theorem head_request_not_404 :
    handle ⟨Method.HEAD, "/", "", [], ""⟩ = ⟨200, ""⟩ ∧
      (200 : Nat) ≠ 404 ∧ (200 : Nat) ≠ 405 :=
  ⟨rfl, by decide, by decide⟩

/-- C3, amended: every request the router does not accept, that is whose
method is neither GET nor HEAD or whose pathname matches neither registered
pattern, gets the framework default status 404; in particular a GET of an
unmatched path gets 404. -/
theorem unmatched_request_404 (req : Request)
    (h : expressAccepts req = false) : (handle req).status = 404 := by
  obtain ⟨m, p, q, hd, b⟩ := req
  cases m <;>
    simp only [expressAccepts, Bool.and_eq_false_iff, Bool.or_eq_false_iff] at h <;>
    try rfl
  case GET =>
    rcases h with ⟨hfalse, _⟩ | hnone
    · exact absurd hfalse (by decide)
    · unfold handle handleWith
      cases hf : findRoute routes p with
      | none => rfl
      | some r => rw [hf] at hnone; simp at hnone
  case HEAD =>
    rcases h with ⟨_, hfalse⟩ | hnone
    · exact absurd hfalse (by decide)
    · unfold handle handleWith
      cases hf : findRoute routes p with
      | none => rfl
      | some r => rw [hf] at hnone; simp at hnone

theorem unmatched_request_404_witness :
    expressAccepts ⟨Method.POST, "/", "", [], ""⟩ = false ∧
      (handle ⟨Method.POST, "/", "", [], ""⟩).status = 404 :=
  ⟨rfl, unmatched_request_404 ⟨Method.POST, "/", "", [], ""⟩ rfl⟩

/-- C4: the only listen call binds port 3000, and the server state carries
that port and no other. -/
theorem listens_on_3000 :
    listenCalls = [3000] ∧ listenPort = 3000 ∧ initialState.port = 3000 :=
  ⟨rfl, rfl, rfl⟩

/-- C5: the response to a request depends on nothing beyond its method and
pathname: two requests to the same route, with arbitrary query strings,
headers and bodies, served after arbitrary prior histories, get identical
responses. -/
theorem response_depends_only_on_method_path
    (h1 h2 : List Request) (r1 r2 : Request)
    (hm : r1.method = r2.method) (hp : r1.path = r2.path) :
    responseAfter h1 r1 = responseAfter h2 r2 := by
  unfold responseAfter serverStep
  rw [runServer_state, runServer_state]
  exact handle_ext r1 r2 hm hp

theorem response_depends_only_on_method_path_witness :
    responseAfter [] ⟨Method.GET, "/", "a=1", [("X-Demo", "1")], "b1"⟩ =
      responseAfter [⟨Method.POST, "/deploy", "", [], "junk"⟩]
        ⟨Method.GET, "/", "c=2", [("Accept", "text/plain")], "b2"⟩ :=
  response_depends_only_on_method_path
    [] [⟨Method.POST, "/deploy", "", [], "junk"⟩]
    ⟨Method.GET, "/", "a=1", [("X-Demo", "1")], "b1"⟩
    ⟨Method.GET, "/", "c=2", [("Accept", "text/plain")], "b2"⟩ rfl rfl

/-- C6: serving a request leaves the server state, its route table and bound
port, unchanged, and so does serving any sequence of requests. -/
theorem requests_leave_state_unchanged :
    (∀ (s : ServerState) (req : Request), (serverStep s req).1 = s) ∧
      (∀ (s : ServerState) (reqs : List Request), (runServer s reqs).1 = s) :=
  ⟨fun _ _ => rfl, fun s reqs => runServer_state s reqs⟩

/-- C9: under the Express default matching options the routes are
case-insensitive and tolerate a trailing slash: GET "/DEPLOY" and GET
"/deploy/" both get 200 with the deploy body, not 404. -/
theorem route_matching_lenient :
    handle ⟨Method.GET, "/DEPLOY", "", [], ""⟩ = ⟨200, deployBody⟩ ∧
      handle ⟨Method.GET, "/deploy/", "", [], ""⟩ = ⟨200, deployBody⟩ ∧
      (handle ⟨Method.GET, "/DEPLOY", "", [], ""⟩).status ≠ 404 ∧
      (handle ⟨Method.GET, "/deploy/", "", [], ""⟩).status ≠ 404 :=
  ⟨rfl, rfl, by decide, by decide⟩

/-- C10: a HEAD request to "/" or to "/deploy" is accepted by the registered
GET routes and answered 200 with an empty body, not with the 404 default. -/
theorem head_routes_ok :
    handle ⟨Method.HEAD, "/", "", [], ""⟩ = ⟨200, ""⟩ ∧
      handle ⟨Method.HEAD, "/deploy", "", [], ""⟩ = ⟨200, ""⟩ :=
  ⟨rfl, rfl⟩
